import Mathlib

/-!
Verification of the Dimmerly repository's single source file,
src/Dimmerly/BridgingHeader.h, a bridging header consisting of an
include guard around one include of the platform I2C interface header.

The embedding models the C preprocessor's conditional-inclusion
behaviour: a translation-unit state is the set of defined macro names,
a header is a list of preprocessing directives, and processing a
directive list threads the macro state, a conditional-group stack, and
an availability map for included headers.  Processing either fails with
a diagnostic (when an include target cannot be located) or succeeds
with the new state and the emitted output: the token streams of the
headers pulled in, plus any ordinary source text of the file itself.
-/

/-- The macro state of a translation unit during preprocessing: the
list of macro names currently defined. -/
structure PPState where
  defined : List String
deriving Repr, DecidableEq

/-- Whether macro name `n` is defined in state `s`. -/
def PPState.isDefined (s : PPState) (n : String) : Bool :=
  s.defined.contains n

/-- The state after a define directive for name `n`. -/
def PPState.defineMacro (s : PPState) (n : String) : PPState :=
  ⟨n :: s.defined⟩

/-- The empty macro state: a fresh translation unit. -/
def PPState.empty : PPState := ⟨[]⟩

/-- The preprocessing directives a header file can contain, as far as
this repository's file uses the language: conditional guards, object
macro definitions, includes, and ordinary (non-directive) source text. -/
inductive Directive where
  | ifndefD (n : String)
  | defineD (n : String)
  | includeD (path : String)
  | endifD
  | textD (tokens : String)
deriving Repr, DecidableEq

/-- One piece of preprocessed output: either the token stream of an
included external header, or tokens contributed by the file itself. -/
inductive Out where
  | headerTokens (path : String)
  | ownTokens (tokens : String)
deriving Repr, DecidableEq

/-- Run the preprocessor over a directive list.  `avail` tells whether
an include path resolves in the build environment.  The conditional
stack `stk` records the conditions of the enclosing conditional
groups; a directive takes effect only when all of them hold.  An
include of an unavailable header is a fatal diagnostic naming the
missing header, and produces no output. -/
def ppRun (avail : String → Bool) :
    List Directive → PPState → List Bool → Except String (PPState × List Out)
  | [], s, _ => Except.ok (s, [])
  | Directive.ifndefD n :: ds, s, stk =>
      ppRun avail ds s ((!s.isDefined n) :: stk)
  | Directive.endifD :: ds, s, stk =>
      ppRun avail ds s stk.tail
  | Directive.defineD n :: ds, s, stk =>
      if stk.all id then ppRun avail ds (s.defineMacro n) stk
      else ppRun avail ds s stk
  | Directive.includeD p :: ds, s, stk =>
      if stk.all id then
        if avail p then
          match ppRun avail ds s stk with
          | Except.ok (s2, out) => Except.ok (s2, Out.headerTokens p :: out)
          | Except.error e => Except.error e
        else Except.error ("fatal error: file not found: " ++ p)
      else ppRun avail ds s stk
  | Directive.textD t :: ds, s, stk =>
      if stk.all id then
        match ppRun avail ds s stk with
        | Except.ok (s2, out) => Except.ok (s2, Out.ownTokens t :: out)
        | Except.error e => Except.error e
      else ppRun avail ds s stk

/-- The sentinel macro of src/Dimmerly/BridgingHeader.h. -/
def sentinel : String := "BridgingHeader_h"

/-- The include path of the platform I2C interface header pulled in by
the shim. -/
def platformHeader : String := "IOKit/i2c/IOI2CInterface.h"

/-- The directive list of src/Dimmerly/BridgingHeader.h (comments are
stripped by the preprocessor before directive handling; the file
contains nothing else). -/
def bridgingHeaderH : List Directive :=
  [Directive.ifndefD sentinel,
   Directive.defineD sentinel,
   Directive.includeD platformHeader,
   Directive.endifD]

/-- One textual inclusion of the shim in a translation unit whose
macro state is `s`. -/
def includeShim (avail : String → Bool) (s : PPState) :
    Except String (PPState × List Out) :=
  ppRun avail bridgingHeaderH s []

/-- A build environment in which every include path resolves. -/
def allAvail : String → Bool := fun _ => true

/-- `n` successive textual inclusions of the shim, threading the macro
state and concatenating the emitted output. -/
def includeShimN (avail : String → Bool) : Nat → PPState → Except String (PPState × List Out)
  | 0, s => Except.ok (s, [])
  | n + 1, s =>
      match includeShim avail s with
      | Except.ok (s2, out) =>
          match includeShimN avail n s2 with
          | Except.ok (s3, out2) => Except.ok (s3, out ++ out2)
          | Except.error e => Except.error e
      | Except.error e => Except.error e

/-- Closed form of one shim inclusion, by cases on the sentinel and on
header availability. -/
theorem includeShim_eq (avail : String → Bool) (s : PPState) :
    includeShim avail s =
      if s.isDefined sentinel then Except.ok (s, [])
      else if avail platformHeader then
        Except.ok (s.defineMacro sentinel, [Out.headerTokens platformHeader])
      else Except.error ("fatal error: file not found: " ++ platformHeader) := by
  cases h : s.isDefined sentinel with
  | false =>
      cases ha : avail platformHeader with
      | false => simp [includeShim, bridgingHeaderH, ppRun, h, ha]
      | true => simp [includeShim, bridgingHeaderH, ppRun, h, ha]
  | true => simp [includeShim, bridgingHeaderH, ppRun, h]

/-- Defining the sentinel makes it defined. -/
theorem isDefined_defineMacro_sentinel (s : PPState) :
    (s.defineMacro sentinel).isDefined sentinel = true := by
  simp [PPState.defineMacro, PPState.isDefined]

/-- From a state in which the sentinel is defined, any number of
further inclusions leaves the state unchanged and emits nothing. -/
theorem includeShimN_seen (avail : String → Bool) (n : Nat) (s : PPState)
    (h : s.isDefined sentinel = true) :
    includeShimN avail n s = Except.ok (s, []) := by
  induction n with
  | zero => simp [includeShimN]
  | succ m ih =>
      simp [includeShimN, includeShim_eq, h, ih]

/-- The spec's statement of the sentinel-macro algorithm, written from
the spec's words for comparison with the embedded source: on entry, if
the fixed sentinel identifier is undefined, define it and emit the
inner include; otherwise emit nothing. -/
def sentinelAlgorithmSpec (s : PPState) : PPState × List Out :=
  if s.isDefined sentinel then (s, [])
  else (s.defineMacro sentinel, [Out.headerTokens platformHeader])

/-- Modelled from the spec: the platform header IOKit/i2c/IOI2CInterface.h
is not part of this repository.  Per the spec it declares the I2C
request descriptor type and the interface-count, open, send, and close
primitives; these are the symbols its token stream contributes. -/
def platformHeaderDecls : List String :=
  ["IOI2CRequest", "IOFBGetI2CInterfaceCount", "IOFBCopyI2CInterfaceForBus",
   "IOI2CInterfaceOpen", "IOI2CSendRequest", "IOI2CInterfaceClose"]

/-- The declarations carried by one piece of preprocessed output. -/
def declsOf : Out → List String
  | Out.headerTokens p => if p = platformHeader then platformHeaderDecls else []
  | Out.ownTokens _ => []

/-- All declarations made visible by a preprocessed output stream. -/
def visibleDecls (outs : List Out) : List String :=
  (outs.map declsOf).flatten

/-- The identifiers occurring in the text of
src/Dimmerly/BridgingHeader.h: the sentinel, and the names mentioned in
its directives and comments. -/
def shimIdentifiers : List String :=
  ["BridgingHeader_h", "Dimmerly", "IOKit", "i2c", "IOI2CInterface",
   "IOI2CRequest", "IOFBGetI2CInterfaceCount", "DDCController"]

/-- The artifacts of the repository, each with the identifiers
occurring in it.  The repository consists of exactly one file. -/
def repoArtifacts : List (String × List String) :=
  [("src/Dimmerly/BridgingHeader.h", shimIdentifiers)]

/-- Evaluation of one shim inclusion on a fresh translation unit with
the platform header available. -/
theorem includeShim_empty :
    includeShim allAvail PPState.empty =
      Except.ok (PPState.empty.defineMacro sentinel, [Out.headerTokens platformHeader]) := by
  rw [includeShim_eq]
  simp [PPState.empty, PPState.isDefined, allAvail]

/-- Claim C1: a translation unit that includes the shim more than once,
starting from a state in which the sentinel is undefined, preprocesses
successfully and the platform header's token stream appears exactly
once in the output. -/
theorem claim1 (n : Nat) (s : PPState) (h : s.isDefined sentinel = false) :
    includeShimN allAvail (n + 1) s =
      Except.ok (s.defineMacro sentinel, [Out.headerTokens platformHeader]) := by
  have hseen := includeShimN_seen allAvail n (s.defineMacro sentinel)
    (isDefined_defineMacro_sentinel s)
  simp [includeShimN, includeShim_eq, h, allAvail, hseen]

/-- Claim C1 witness: two consecutive inclusions on a fresh translation
unit emit the platform header's token stream exactly once. -/
theorem claim1_witness :
    PPState.empty.isDefined sentinel = false ∧
    includeShimN allAvail 2 PPState.empty =
      Except.ok (PPState.empty.defineMacro sentinel, [Out.headerTokens platformHeader]) :=
  ⟨rfl, claim1 1 PPState.empty rfl⟩

/-- Claim C2: with the platform header available, one inclusion of the
shim behaves exactly as the spec's sentinel-macro algorithm: if the
sentinel is undefined, define it and emit the inner include; otherwise
emit nothing. -/
theorem claim2 (s : PPState) :
    includeShim allAvail s = Except.ok (sentinelAlgorithmSpec s) := by
  rw [includeShim_eq]
  cases h : s.isDefined sentinel <;> simp [sentinelAlgorithmSpec, h, allAvail]

/-- Claim C3: a translation unit that includes only the shim, starting
with the sentinel undefined, can name the I2C request descriptor type
and the interface-count, open, send, and close primitives without any
further includes. -/
theorem claim3 (s : PPState) (h : s.isDefined sentinel = false) :
    includeShim allAvail s =
      Except.ok (s.defineMacro sentinel, [Out.headerTokens platformHeader]) ∧
    "IOI2CRequest" ∈ visibleDecls [Out.headerTokens platformHeader] ∧
    "IOFBGetI2CInterfaceCount" ∈ visibleDecls [Out.headerTokens platformHeader] ∧
    "IOI2CInterfaceOpen" ∈ visibleDecls [Out.headerTokens platformHeader] ∧
    "IOI2CSendRequest" ∈ visibleDecls [Out.headerTokens platformHeader] ∧
    "IOI2CInterfaceClose" ∈ visibleDecls [Out.headerTokens platformHeader] := by
  refine ⟨?_, by decide, by decide, by decide, by decide, by decide⟩
  simp [includeShim_eq, h, allAvail]

/-- Claim C3 witness: the symbols are nameable after including only the
shim on a fresh translation unit. -/
theorem claim3_witness :
    PPState.empty.isDefined sentinel = false ∧
    (includeShim allAvail PPState.empty =
        Except.ok (PPState.empty.defineMacro sentinel, [Out.headerTokens platformHeader]) ∧
      "IOI2CRequest" ∈ visibleDecls [Out.headerTokens platformHeader] ∧
      "IOFBGetI2CInterfaceCount" ∈ visibleDecls [Out.headerTokens platformHeader] ∧
      "IOI2CInterfaceOpen" ∈ visibleDecls [Out.headerTokens platformHeader] ∧
      "IOI2CSendRequest" ∈ visibleDecls [Out.headerTokens platformHeader] ∧
      "IOI2CInterfaceClose" ∈ visibleDecls [Out.headerTokens platformHeader]) :=
  ⟨rfl, claim3 PPState.empty rfl⟩

/-- Claim C4: starting with the sentinel undefined, processing the shim
fails if and only if the platform I2C header is unavailable in the
build environment; in that case the failure is a diagnostic naming the
missing header and no output is produced. -/
theorem claim4 (avail : String → Bool) (s : PPState)
    (h : s.isDefined sentinel = false) :
    ((∃ e, includeShim avail s = Except.error e) ↔ avail platformHeader = false) ∧
    (avail platformHeader = false →
      includeShim avail s =
        Except.error ("fatal error: file not found: " ++ platformHeader)) := by
  rw [includeShim_eq]
  cases ha : avail platformHeader <;> simp [h, ha]

/-- Claim C4 witness: on a build environment without the platform
header, a fresh inclusion of the shim fails with a diagnostic naming
the missing header. -/
theorem claim4_witness :
    PPState.empty.isDefined sentinel = false ∧
    (fun _ : String => false) platformHeader = false ∧
    includeShim (fun _ => false) PPState.empty =
      Except.error ("fatal error: file not found: " ++ platformHeader) :=
  ⟨rfl, rfl, (claim4 (fun _ => false) PPState.empty rfl).2 rfl⟩

/-- Claim C5: any two preprocessing states that agree on whether the
sentinel is defined, however much they differ in every other macro,
yield the same processing outcome for the shim: the same emitted
output, the same error if any, and the same observable sentinel state
afterwards. -/
theorem claim5 (avail : String → Bool) (s1 s2 : PPState)
    (h : s1.isDefined sentinel = s2.isDefined sentinel) :
    Except.map (fun r => (r.1.isDefined sentinel, r.2)) (includeShim avail s1) =
      Except.map (fun r => (r.1.isDefined sentinel, r.2)) (includeShim avail s2) := by
  cases h1 : s1.isDefined sentinel with
  | false =>
      have h2 : s2.isDefined sentinel = false := by rw [← h, h1]
      rw [includeShim_eq, includeShim_eq, h1, h2]
      cases ha : avail platformHeader <;>
        simp [Except.map, isDefined_defineMacro_sentinel]
  | true =>
      have h2 : s2.isDefined sentinel = true := by rw [← h, h1]
      rw [includeShim_eq, includeShim_eq, h1, h2]
      simp [Except.map, h1, h2]

/-- Claim C5 witness: a fresh translation unit and one with an
unrelated architecture macro defined process the shim identically. -/
theorem claim5_witness :
    PPState.empty.isDefined sentinel = (PPState.mk ["__x86_64__"]).isDefined sentinel ∧
    Except.map (fun r => (r.1.isDefined sentinel, r.2)) (includeShim allAvail PPState.empty) =
      Except.map (fun r => (r.1.isDefined sentinel, r.2))
        (includeShim allAvail (PPState.mk ["__x86_64__"])) :=
  ⟨by decide, claim5 allAvail PPState.empty (PPState.mk ["__x86_64__"]) (by decide)⟩

/-- Claim C6: per translation unit the shim is a two-state machine over
the sentinel: from unseen (sentinel undefined), the first inclusion
moves to seen (sentinel defined); from seen, no sequence of further
inclusions ever returns to unseen or changes the state at all. -/
theorem claim6 (avail : String → Bool) (s : PPState) :
    (s.isDefined sentinel = false → avail platformHeader = true →
      includeShim avail s =
          Except.ok (s.defineMacro sentinel, [Out.headerTokens platformHeader]) ∧
        (s.defineMacro sentinel).isDefined sentinel = true) ∧
    (∀ n s2 out, s.isDefined sentinel = true →
      includeShimN avail n s = Except.ok (s2, out) →
        s2.isDefined sentinel = true) := by
  constructor
  · intro h ha
    exact ⟨by simp [includeShim_eq, h, ha], isDefined_defineMacro_sentinel s⟩
  · intro n s2 out h hrun
    rw [includeShimN_seen avail n s h] at hrun
    cases hrun
    exact h

/-- Claim C6 witness: the unseen-to-seen transition on a fresh
translation unit, and seen-state stability over three further
inclusions. -/
theorem claim6_witness :
    (PPState.empty.isDefined sentinel = false ∧ allAvail platformHeader = true ∧
      (includeShim allAvail PPState.empty =
          Except.ok (PPState.empty.defineMacro sentinel, [Out.headerTokens platformHeader]) ∧
        (PPState.empty.defineMacro sentinel).isDefined sentinel = true)) ∧
    ((PPState.mk [sentinel]).isDefined sentinel = true ∧
      includeShimN allAvail 3 (PPState.mk [sentinel]) =
        Except.ok (PPState.mk [sentinel], []) ∧
      (PPState.mk [sentinel]).isDefined sentinel = true) :=
  ⟨⟨rfl, rfl, (claim6 allAvail PPState.empty).1 rfl rfl⟩,
   ⟨rfl, includeShimN_seen allAvail 3 (PPState.mk [sentinel]) rfl,
    (claim6 allAvail (PPState.mk [sentinel])).2 3 (PPState.mk [sentinel]) []
      rfl (includeShimN_seen allAvail 3 (PPState.mk [sentinel]) rfl)⟩⟩

/-- Claim C7: the shim contributes nothing of its own: every piece of
output a successful inclusion emits is the token stream of the
platform header, never tokens of the shim itself, and the shim's text
contains no ordinary source lines at all. -/
theorem claim7 (avail : String → Bool) (s s2 : PPState) (out : List Out)
    (h : includeShim avail s = Except.ok (s2, out)) :
    (∀ o ∈ out, o = Out.headerTokens platformHeader) ∧
    (∀ d ∈ bridgingHeaderH, ∀ t, d ≠ Directive.textD t) := by
  constructor
  · rw [includeShim_eq] at h
    intro o ho
    cases h1 : s.isDefined sentinel <;> rw [h1] at h
    · cases ha : avail platformHeader <;> rw [ha] at h <;> simp at h
      rcases h with ⟨h2, h3⟩
      subst h3
      simpa using ho
    · simp at h
      rcases h with ⟨h2, h3⟩
      subst h3
      simp at ho
  · intro d hd t
    simp [bridgingHeaderH] at hd
    rcases hd with rfl | rfl | rfl | rfl <;> simp

/-- Claim C7 witness: the one inclusion that does emit output emits
only the platform header's token stream. -/
theorem claim7_witness :
    includeShim allAvail PPState.empty =
      Except.ok (PPState.empty.defineMacro sentinel, [Out.headerTokens platformHeader]) ∧
    ((∀ o ∈ [Out.headerTokens platformHeader], o = Out.headerTokens platformHeader) ∧
      (∀ d ∈ bridgingHeaderH, ∀ t, d ≠ Directive.textD t)) :=
  ⟨includeShim_empty,
   claim7 allAvail PPState.empty (PPState.empty.defineMacro sentinel)
     [Out.headerTokens platformHeader] includeShim_empty⟩

/-- Claim C8: the sentinel identifier appears in no artifact of the
repository other than the bridging header itself, and does not clash
with any declaration of the platform header it includes. -/
theorem claim8 :
    (∀ a ∈ repoArtifacts, sentinel ∈ a.2 →
      a.1 = "src/Dimmerly/BridgingHeader.h") ∧
    sentinel ∉ platformHeaderDecls := by
  constructor
  · intro a ha hs
    simp [repoArtifacts] at ha
    rw [ha]
  · decide

/-- Claim C8 witness: the one artifact containing the sentinel is the
bridging header itself. -/
theorem claim8_witness :
    (("src/Dimmerly/BridgingHeader.h", shimIdentifiers) ∈ repoArtifacts ∧
      sentinel ∈ shimIdentifiers) ∧
    ("src/Dimmerly/BridgingHeader.h", shimIdentifiers).1 =
      "src/Dimmerly/BridgingHeader.h" :=
  ⟨⟨by decide, by decide⟩,
   claim8.1 ("src/Dimmerly/BridgingHeader.h", shimIdentifiers)
     (by decide) (by decide)⟩

/-- Claim C9: when the sentinel is already defined before the shim is
ever included, including the shim has no effect at all: the state is
unchanged and nothing is emitted, so the platform header is never
processed and none of its symbols become visible, whatever the build
environment. -/
theorem claim9 (avail : String → Bool) (s : PPState)
    (h : s.isDefined sentinel = true) :
    includeShim avail s = Except.ok (s, []) ∧ visibleDecls [] = [] := by
  exact ⟨by simp [includeShim_eq, h], rfl⟩

/-- Claim C9 witness: with the sentinel predefined, an inclusion on an
environment without the platform header still succeeds and emits
nothing. -/
theorem claim9_witness :
    (PPState.mk [sentinel]).isDefined sentinel = true ∧
    (includeShim (fun _ => false) (PPState.mk [sentinel]) =
        Except.ok (PPState.mk [sentinel], []) ∧
      visibleDecls [] = []) :=
  ⟨rfl, claim9 (fun _ => false) (PPState.mk [sentinel]) rfl⟩

/-- Claim C10: the shim has no architecture or platform conditional:
its only conditional tests the sentinel, and whenever the sentinel is
undefined the platform header is included, in every build
configuration and whatever other macros are defined. -/
theorem claim10 :
    (∀ d ∈ bridgingHeaderH, ∀ n, d = Directive.ifndefD n → n = sentinel) ∧
    (∀ (avail : String → Bool) (s : PPState),
      s.isDefined sentinel = false → avail platformHeader = true →
        includeShim avail s =
          Except.ok (s.defineMacro sentinel, [Out.headerTokens platformHeader])) := by
  constructor
  · intro d hd n he
    simp [bridgingHeaderH] at hd
    rcases hd with rfl | rfl | rfl | rfl <;> simp_all
  · intro avail s h ha
    simp [includeShim_eq, h, ha]

/-- Claim C10 witness: the conditional in the shim tests the sentinel,
and a state that defines an architecture macro but not the sentinel
still gets the platform header included. -/
theorem claim10_witness :
    (Directive.ifndefD sentinel ∈ bridgingHeaderH ∧ sentinel = sentinel) ∧
    ((PPState.mk ["__x86_64__"]).isDefined sentinel = false ∧
      allAvail platformHeader = true ∧
      includeShim allAvail (PPState.mk ["__x86_64__"]) =
        Except.ok ((PPState.mk ["__x86_64__"]).defineMacro sentinel,
          [Out.headerTokens platformHeader])) :=
  ⟨⟨by decide,
    claim10.1 (Directive.ifndefD sentinel) (by decide) sentinel rfl⟩,
   ⟨by decide, rfl,
    claim10.2 allAvail (PPState.mk ["__x86_64__"]) (by decide) rfl⟩⟩
